import Mathlib

/-!
Shallow embedding of `custom_components/samsungtv_smart/switch.py`, the
Frame Art switch platform of the samsungtv_smart integration:

* entity resolution in `async_setup_entry` (a first-match loop over the
  host entity registry),
* the option clamping performed by `FrameArtSwitch.__init__`,
* the post-toggle sequencer `_sequence_after_art_off` with its service
  call wrappers `_call_select_source` / `_call_select_app` and the
  bounded attribute wait `_wait_attr`,
* the toggle handlers `async_turn_on` / `async_turn_off`.

Service calls, sleeps, host-state polls, art-mode commands and logger
call sites are recorded as events in a trace.  The outcome of every host
service call and the host state store are supplied by an `Env`.  Python
exceptions raised by the service bus are modelled with `Except`; the
wrappers catch them, which the embedding makes explicit by matching on
the `Except` value.  The host state is held fixed over a run (a
snapshot), which suffices for the properties below.  Durations are
modelled in integer milliseconds so that every run is kernel-computable
(0.05 s = 50 ms, 0.6 s = 600 ms, 0.35 s = 350 ms); log messages are
reduced to tags for their call sites.
-/

/-- A host service-bus call together with its payload shape:
`media_player.select_source {entity_id, source}`,
`samsungtv_smart.select_app {entity_id, app}` and
`samsungtv_smart.select_app {entity_id, app_id}`. -/
inductive SvcCall : Type
  | selectSource (entity label : String)
  | selectAppApp (entity app : String)
  | selectAppAppId (entity app : String)
  deriving DecidableEq, Repr

/-- Tags for the `_LOGGER` call sites of `switch.py` (messages elided). -/
inductive LogMsg : Type
  | selectSourceSent
  | selectSourceFailed
  | selectAppSent
  | selectAppIdSent
  | selectAppFallbackFailed
  | artOnFailed
  | artOffFailed
  | artStatusFailed
  deriving DecidableEq, Repr

/-- Observable events of a run (sleep durations in milliseconds). -/
inductive Ev : Type
  | sleep (d : ℤ)
  | svc (c : SvcCall)
  | log (m : LogMsg)
  | poll (key : String) (value : Option String)
  | art (mode : String)
  deriving DecidableEq, Repr

/-- A row of the host entity registry, with the fields read by
`async_setup_entry` plus the disabled flag the spec talks about. -/
structure RegEntry : Type where
  entity_id : String
  domain : String
  platform : String
  config_entry_id : Option String
  disabled_by : Option String
  deriving DecidableEq, Repr

/-- The host environment: the outcome of each service call, and the
current host state store (entity id to attribute map). -/
structure Env : Type where
  svcOk : SvcCall → Bool
  states : String → Option (String → Option String)

/-- The recognized `entry.options` keys (`none` = key absent); the two
durations are in milliseconds, the retry count is the integer the
source's `int(...)` conversion yields. -/
structure Options : Type where
  enabled : Option Bool := none
  source_off : Option String := none
  app_id : Option String := none
  select_delay : Option ℤ := none
  retries : Option ℤ := none
  retry_sleep : Option ℤ := none

/-- The `entry.data` keys probed for a host address. -/
structure EntryData : Type where
  host : Option String := none
  ip_address : Option String := none
  ip : Option String := none
  device_ip : Option String := none

/-- Python `a or b` on optional strings (`None` and `""` are falsy). -/
def pyOr (a b : Option String) : Option String :=
  match a with
  | none => b
  | some s => if s = "" then b else some s

/-- Python `max` on two numbers (durations in milliseconds, counts). -/
def pyMax (a b : ℤ) : ℤ :=
  if a ≤ b then b else a

/-- The switch state: identity, the cached media-player reference,
`is_on`, availability, and the clamped options stored by `__init__`. -/
structure FrameArtSwitch : Type where
  unique_id : String
  name : String
  host : String
  mp : Option String
  is_on : Bool
  available : Bool
  enabled : Bool
  source_off : Option String
  app_id : String
  delay : ℤ
  retries : ℕ
  retry_sleep : ℤ
  deriving DecidableEq, Repr

/-- `FrameArtSwitch.__init__`: stores the constructor arguments and the
options, with `_delay = max(0.0, ...)`, `_retries = max(0, int(...))`
and `_retry_sleep = max(0.05, ...)` (here 50 ms) with defaults 0.6 s
(600 ms), 6 retries and 0.35 s (350 ms); `_attr_is_on` starts `False`
and the entity starts available. -/
def mkFrameArtSwitch (unique_id name host : String) (media_player : Option String)
    (options : Options) : FrameArtSwitch where
  unique_id := unique_id
  name := name
  host := host
  mp := media_player
  is_on := false
  available := true
  enabled := options.enabled.getD true
  source_off := options.source_off
  app_id := options.app_id.getD "TV/HDMI"
  delay := pyMax 0 (options.select_delay.getD 600)
  retries := (pyMax 0 (options.retries.getD 6)).toNat
  retry_sleep := pyMax 50 (options.retry_sleep.getD 350)

/-- The per-row condition of the resolution loop in `async_setup_entry`
(lines 45-48): domain `media_player`, platform `samsungtv_smart`, and
the entry's config entry id. -/
def matches_entry (entry_id : String) (e : RegEntry) : Bool :=
  e.domain == "media_player" && e.platform == "samsungtv_smart" &&
    e.config_entry_id == some entry_id

/-- Entity resolution at setup: the first registry row in iteration
order satisfying `matches_entry`, if any. -/
def resolveMp (entry_id : String) (reg : List RegEntry) : Option String :=
  (reg.find? (matches_entry entry_id)).map RegEntry.entity_id

/-- `async_setup_entry`: skip when the enable option is literally
`False`, resolve the media player, probe `entry.data` for a host
address, and construct the switch entity. -/
def setup_entry (entry_id : String) (title : Option String) (opts : Options)
    (data : EntryData) (reg : List RegEntry) : Option FrameArtSwitch :=
  if opts.enabled = some false then none
  else
    let mp := resolveMp entry_id reg
    let hostAddr := pyOr data.host (pyOr data.ip_address (pyOr data.ip data.device_ip))
    let nm := (pyOr title (some "Samsung The Frame")).getD "Samsung The Frame"
    match hostAddr with
    | none => none
    | some h =>
      if h = "" then none
      else some (mkFrameArtSwitch (entry_id ++ "-frame_art") (nm ++ " Art") h mp opts)

/-- `hass.services.async_call`: issues the call, raising on failure. -/
def raw_async_call (env : Env) (c : SvcCall) : List Ev × Except String Unit :=
  ([Ev.svc c], if env.svcOk c then Except.ok () else Except.error "HomeAssistantError")

/-- `FrameArtSwitch._call_select_source`: `False` without a media-player
reference; otherwise issue `media_player.select_source`, catching the
failure (logged at warning level) at the call site. -/
def call_select_source (env : Env) (sw : FrameArtSwitch) (label : String) :
    List Ev × Bool :=
  match sw.mp with
  | none => ([], false)
  | some m =>
    if m = "" then ([], false)
    else
      let r := raw_async_call env (SvcCall.selectSource m label)
      match r.2 with
      | Except.ok _ => (r.1 ++ [Ev.log LogMsg.selectSourceSent], true)
      | Except.error _ => (r.1 ++ [Ev.log LogMsg.selectSourceFailed], false)

/-- `FrameArtSwitch._call_select_app`: try `samsungtv_smart.select_app`
with parameter name `app`; on failure retry with parameter name
`app_id`; when both raise, log (debug) and fall back to a plain
`media_player.select_source` with the app id as the source label. -/
def call_select_app (env : Env) (sw : FrameArtSwitch) (app_id : String) :
    List Ev × Bool :=
  match sw.mp with
  | none => ([], false)
  | some m =>
    if m = "" then ([], false)
    else
      let r1 := raw_async_call env (SvcCall.selectAppApp m app_id)
      match r1.2 with
      | Except.ok _ => (r1.1 ++ [Ev.log LogMsg.selectAppSent], true)
      | Except.error _ =>
        let r2 := raw_async_call env (SvcCall.selectAppAppId m app_id)
        match r2.2 with
        | Except.ok _ => (r1.1 ++ r2.1 ++ [Ev.log LogMsg.selectAppIdSent], true)
        | Except.error _ =>
          let r3 := call_select_source env sw app_id
          (r1.1 ++ r2.1 ++ [Ev.log LogMsg.selectAppFallbackFailed] ++ r3.1, r3.2)

/-- `FrameArtSwitch._get_attr`: an attribute of the referenced entity in
the host state store; `None` without a reference or without a state. -/
def get_attr (env : Env) (sw : FrameArtSwitch) (key : String) : Option String :=
  match sw.mp with
  | none => none
  | some m =>
    if m = "" then none
    else
      match env.states m with
      | none => none
      | some attrs => attrs key

/-- The loop of `_wait_attr` (`for _ in range(self._retries + 1)`):
check the attribute, return `True` on a match, otherwise sleep the
retry interval and continue; `False` after the last iteration. -/
def wait_attr_loop (env : Env) (sw : FrameArtSwitch) (key expected : String) :
    ℕ → List Ev × Bool
  | 0 => ([], false)
  | n + 1 =>
    if get_attr env sw key = some expected then
      ([Ev.poll key (get_attr env sw key)], true)
    else
      (Ev.poll key (get_attr env sw key) :: Ev.sleep sw.retry_sleep ::
        (wait_attr_loop env sw key expected n).1,
       (wait_attr_loop env sw key expected n).2)

/-- `FrameArtSwitch._wait_attr`. -/
def wait_attr (env : Env) (sw : FrameArtSwitch) (key expected : String) :
    List Ev × Bool :=
  wait_attr_loop env sw key expected (sw.retries + 1)

/-- The `if self._delay > 0: await asyncio.sleep(self._delay)` guard. -/
def delay_events (sw : FrameArtSwitch) : List Ev :=
  if 0 < sw.delay then [Ev.sleep sw.delay] else []

/-- Step 1 of `_sequence_after_art_off`: source selection, only when a
source-off option is set (python truthiness), with the optional delay,
and the attribute wait only after a successful call. -/
def seq_source_step (env : Env) (sw : FrameArtSwitch) : List Ev :=
  match sw.source_off with
  | none => []
  | some src =>
    if src = "" then []
    else
      let c := call_select_source env sw src
      if c.2 then delay_events sw ++ c.1 ++ (wait_attr env sw "source" src).1
      else delay_events sw ++ c.1

/-- Step 2 of `_sequence_after_art_off`: app selection, only when the
app-id option is truthy, with the optional delay, and the attribute
wait only after a successful call. -/
def seq_app_step (env : Env) (sw : FrameArtSwitch) : List Ev :=
  if sw.app_id = "" then []
  else
    let c := call_select_app env sw sw.app_id
    if c.2 then delay_events sw ++ c.1 ++ (wait_attr env sw "app_id" sw.app_id).1
    else delay_events sw ++ c.1

/-- `FrameArtSwitch._sequence_after_art_off`: nothing when the feature
is disabled, otherwise the source step followed by the app step.  Every
service call inside is caught at its call site, so the sequencer itself
never produces an error. -/
def sequence_after_art_off (env : Env) (sw : FrameArtSwitch) :
    List Ev × Except String Unit :=
  if sw.enabled then (seq_source_step env sw ++ seq_app_step env sw, Except.ok ())
  else ([], Except.ok ())

/-- `FrameArtSwitch.async_turn_on`: issue `set_artmode("on")`; on
success record `is_on := true` and available, on failure (caught) only
mark unavailable.  `artOk` is the outcome of this invocation's art-mode
command. -/
def async_turn_on (artOk : Bool) (sw : FrameArtSwitch) :
    FrameArtSwitch × List Ev × Except String Unit :=
  if artOk then
    ({ sw with is_on := true, available := true }, [Ev.art "on"], Except.ok ())
  else
    ({ sw with available := false }, [Ev.art "on", Ev.log LogMsg.artOnFailed],
      Except.ok ())

/-- `FrameArtSwitch.async_turn_off`: issue `set_artmode("off")`; on
success record `is_on := false` and then run the post-toggle sequencer;
on failure (caught) only mark unavailable and skip the sequencer. -/
def async_turn_off (env : Env) (artOk : Bool) (sw : FrameArtSwitch) :
    FrameArtSwitch × List Ev × Except String Unit :=
  if artOk then
    let sw2 := { sw with is_on := false, available := true }
    let s := sequence_after_art_off env sw2
    (sw2, Ev.art "off" :: s.1, s.2)
  else
    ({ sw with available := false }, [Ev.art "off", Ev.log LogMsg.artOffFailed],
      Except.ok ())

/-- `FrameArtSwitch.async_update`: mirror the polled art-mode status. -/
def async_update (statusResult : Except String String) (sw : FrameArtSwitch) :
    FrameArtSwitch :=
  match statusResult with
  | Except.ok status => { sw with is_on := status == "on", available := true }
  | Except.error _ => { sw with available := false }

/-- Event classifier: service-bus calls. -/
def isSvcEv : Ev → Bool
  | Ev.svc _ => true
  | _ => false

/-- Event classifier: host-state polls. -/
def isPollEv : Ev → Bool
  | Ev.poll _ _ => true
  | _ => false

/-- Event classifier: sleeps. -/
def isSleepEv : Ev → Bool
  | Ev.sleep _ => true
  | _ => false

/-- Event classifier: logger calls. -/
def isLogEv : Ev → Bool
  | Ev.log _ => true
  | _ => false

/-- Log events reporting a failure (as opposed to success debug lines). -/
def isFailureLogEv : Ev → Bool
  | Ev.log LogMsg.selectSourceFailed => true
  | Ev.log LogMsg.selectAppFallbackFailed => true
  | Ev.log LogMsg.artOnFailed => true
  | Ev.log LogMsg.artOffFailed => true
  | Ev.log LogMsg.artStatusFailed => true
  | _ => false

/-- Predicate written from the words of the resolution contract in the
spec (not from the source): a registry row that is a media-player
entity, owned by the given entry, not disabled, and present in the host
state (`present`). -/
def claimValidPresent (present : String → Bool) (entry_id : String) (e : RegEntry) :
    Bool :=
  e.domain == "media_player" && e.config_entry_id == some entry_id &&
    e.disabled_by == none && present e.entity_id

/-- Modelled from the spec: the "normalized slug of the instance's
display title" used by the slug-preference step of the resolver
contract; the resolver in `switch.py` has no slug logic.  Lower-cases
letters and digits stay, every other character becomes an underscore. -/
def slugify (s : String) : String :=
  String.mk (s.toList.map (fun c => if c.isAlphanum then c.toLower else '_'))

/-- `leadsWith p l`: the characters `p` appear at the front of `l`. -/
def leadsWith : List Char → List Char → Bool
  | [], _ => true
  | _ :: _, [] => false
  | p :: ps, c :: cs => p == c && leadsWith ps cs

/-- `containsChars pat l`: `pat` occurs contiguously inside `l`. -/
def containsChars (pat : List Char) : List Char → Bool
  | [] => leadsWith pat []
  | c :: cs => leadsWith pat (c :: cs) || containsChars pat cs

/-- Substring test, for "entity id textually contains the slug". -/
def strContains (s pat : String) : Bool :=
  containsChars pat.toList s.toList

/-! ### Concrete registries, environments and switches used below -/

/-- Registry for C1: the first matching row is disabled, the second is
the only valid, present media player of the entry. -/
def cexReg1 : List RegEntry :=
  [ { entity_id := "media_player.frame_one", domain := "media_player",
      platform := "samsungtv_smart", config_entry_id := some "entry1",
      disabled_by := some "user" },
    { entity_id := "media_player.frame_two", domain := "media_player",
      platform := "samsungtv_smart", config_entry_id := some "entry1",
      disabled_by := none } ]

/-- Registry for the C1 witness: a single matching row. -/
def cexRegW1 : List RegEntry :=
  [ { entity_id := "media_player.sole", domain := "media_player",
      platform := "samsungtv_smart", config_entry_id := some "w1",
      disabled_by := none } ]

/-- The single row of `cexRegW1`. -/
def cexRowW1 : RegEntry :=
  { entity_id := "media_player.sole", domain := "media_player",
    platform := "samsungtv_smart", config_entry_id := some "w1",
    disabled_by := none }

/-- Environment for C2's counterexample: only the primary-parameter
`select_app` call fails. -/
def cexEnv2 : Env :=
  { svcOk := fun c =>
      match c with
      | SvcCall.selectAppApp _ _ => false
      | _ => true,
    states := fun _ => none }

/-- Switch for C2's counterexample (default options, resolved media
player). -/
def cexSw2 : FrameArtSwitch :=
  mkFrameArtSwitch "u2" "n2" "h2" (some "media_player.x") {}

/-- Environment for C2's witness: every service call fails. -/
def cexEnv2w : Env :=
  { svcOk := fun _ => false, states := fun _ => none }

/-- Switch for C2's witness: source-off option set. -/
def cexSw2w : FrameArtSwitch :=
  mkFrameArtSwitch "u2w" "n2w" "h2w" (some "media_player.w")
    { source_off := some "HDMI1" }

/-- Environment for C3's witness: every call succeeds, the attribute
store never changes. -/
def cexEnv3 : Env :=
  { svcOk := fun _ => true, states := fun _ => some (fun _ => none) }

/-- Switch for C3's witness: the spec scenario's options (0.1 s = 100 ms
retry sleep, 3 retries). -/
def cexSw3 : FrameArtSwitch :=
  mkFrameArtSwitch "e3-frame_art" "TV Art" "10.0.0.4" (some "media_player.frame3")
    { source_off := some "HDMI1", retries := some 3, retry_sleep := some 100 }

/-- Environment for C4: calls succeed, the polled attribute never holds
the expected value. -/
def cexEnv4 : Env :=
  { svcOk := fun _ => true, states := fun _ => some (fun _ => none) }

/-- Switch for C4: `frame_art_retries: 3`. -/
def cexSw4 : FrameArtSwitch :=
  mkFrameArtSwitch "e4-frame_art" "Frame Art" "10.0.0.2" (some "media_player.frame")
    { source_off := some "HDMI1", retries := some 3, retry_sleep := some 100 }

/-- Environment for C5's witness: both `select_app` parameter names
fail, the plain source selection succeeds. -/
def cexEnv5 : Env :=
  { svcOk := fun c =>
      match c with
      | SvcCall.selectSource _ _ => true
      | _ => false,
    states := fun _ => none }

/-- Switch for C5's witness. -/
def cexSw5 : FrameArtSwitch :=
  mkFrameArtSwitch "u5" "n5" "h5" (some "media_player.f") {}

/-- Registry for C6: the only matching row is disabled, and absent from
host state. -/
def cexReg6 : List RegEntry :=
  [ { entity_id := "media_player.ghost", domain := "media_player",
      platform := "samsungtv_smart", config_entry_id := some "entry6",
      disabled_by := some "user" } ]

/-- Host-state presence for C6: nothing is present. -/
def cexPresent6 : String → Bool := fun _ => false

/-- Registry for C7: two valid, present candidates; only the second's
entity id contains the slug of the title "Tv Two". -/
def cexReg7 : List RegEntry :=
  [ { entity_id := "media_player.samsung_frame", domain := "media_player",
      platform := "samsungtv_smart", config_entry_id := some "entry7",
      disabled_by := none },
    { entity_id := "media_player.tv_two", domain := "media_player",
      platform := "samsungtv_smart", config_entry_id := some "entry7",
      disabled_by := none } ]

/-- C7 witness: a non-matching row ahead of the first matching row. -/
def cexPre7 : List RegEntry :=
  [ { entity_id := "sensor.other", domain := "sensor",
      platform := "samsungtv_smart", config_entry_id := some "w7",
      disabled_by := none } ]

/-- C7 witness: the first matching row. -/
def cexRowE7 : RegEntry :=
  { entity_id := "media_player.first_match", domain := "media_player",
    platform := "samsungtv_smart", config_entry_id := some "w7",
    disabled_by := none }

/-- C7 witness: a second matching row after the first. -/
def cexPost7 : List RegEntry :=
  [ { entity_id := "media_player.second_match", domain := "media_player",
      platform := "samsungtv_smart", config_entry_id := some "w7",
      disabled_by := none } ]

/-- Registry for C8: one matching row whose entity is absent from host
state. -/
def cexReg8 : List RegEntry :=
  [ { entity_id := "media_player.vanished", domain := "media_player",
      platform := "samsungtv_smart", config_entry_id := some "entry8",
      disabled_by := none } ]

/-- Environment for C8: the host state store is empty. -/
def cexEnv8 : Env :=
  { svcOk := fun _ => true, states := fun _ => none }

/-- Switch for C8, as `setup_entry` would build it from `cexReg8`. -/
def cexSw8 : FrameArtSwitch :=
  mkFrameArtSwitch "entry8-frame_art" "Samsung The Frame Art" "10.0.0.8"
    (some "media_player.vanished") {}

/-- Environment for C10's witness: empty host state, so the wait loop
sleeps after each poll. -/
def cexEnv10 : Env :=
  { svcOk := fun _ => true, states := fun _ => none }

/-- Options for C10's witness: a configured retry sleep of 10 ms, below
the 50 ms clamp, and zero retries. -/
def cexOpts10 : Options :=
  { retries := some 0, retry_sleep := some 10 }

/-! ### Helper lemmas -/

theorem find?_of_filter_singleton {α : Type} {p : α → Bool} (l : List α) (e : α)
    (h : l.filter p = [e]) : l.find? p = some e := by
  induction l with
  | nil => simp at h
  | cons a t ih =>
    cases hpa : p a with
    | false =>
      simp [List.filter_cons, hpa] at h
      simp [List.find?_cons, hpa]
      exact ih h
    | true =>
      simp [List.filter_cons, hpa] at h
      obtain ⟨rfl, -⟩ := h
      simp [List.find?_cons, hpa]

theorem find?_append_first {α : Type} {p : α → Bool} (pre post : List α) (e : α)
    (hpre : ∀ x ∈ pre, p x = false) (he : p e = true) :
    (pre ++ e :: post).find? p = some e := by
  induction pre with
  | nil => simp [List.find?_cons, he]
  | cons a t ih =>
    have ha : p a = false := hpre a (by simp)
    simp only [List.cons_append, List.find?_cons, ha]
    exact ih (fun x hx => hpre x (by simp [hx]))

theorem sequence_after_art_off_ok (env : Env) (sw : FrameArtSwitch) :
    (sequence_after_art_off env sw).2 = Except.ok () := by
  unfold sequence_after_art_off
  split <;> rfl

theorem wait_attr_loop_no_svc (env : Env) (sw : FrameArtSwitch) (key expected : String)
    (n : ℕ) : ((wait_attr_loop env sw key expected n).1.filter isSvcEv) = [] := by
  induction n with
  | zero => rfl
  | succ k ih =>
    by_cases h : get_attr env sw key = some expected <;>
      simp [wait_attr_loop, h, isSvcEv, List.filter_cons, ih]

theorem wait_attr_loop_no_log (env : Env) (sw : FrameArtSwitch) (key expected : String)
    (n : ℕ) : ((wait_attr_loop env sw key expected n).1.filter isLogEv) = [] := by
  induction n with
  | zero => rfl
  | succ k ih =>
    by_cases h : get_attr env sw key = some expected <;>
      simp [wait_attr_loop, h, isLogEv, List.filter_cons, ih]

theorem wait_attr_loop_sleep_dur (env : Env) (sw : FrameArtSwitch)
    (key expected : String) (d : ℤ) (n : ℕ)
    (hmem : Ev.sleep d ∈ (wait_attr_loop env sw key expected n).1) :
    d = sw.retry_sleep := by
  induction n with
  | zero => simp [wait_attr_loop] at hmem
  | succ k ih =>
    by_cases h : get_attr env sw key = some expected
    · simp [wait_attr_loop, h] at hmem
    · simp [wait_attr_loop, h] at hmem
      rcases hmem with h1 | h2
      · exact h1
      · exact ih h2

theorem wait_attr_loop_exhaust (env : Env) (sw : FrameArtSwitch)
    (key expected : String) (h : ¬ get_attr env sw key = some expected) (n : ℕ) :
    (wait_attr_loop env sw key expected n).2 = false ∧
    ((wait_attr_loop env sw key expected n).1.filter isPollEv).length = n ∧
    ((wait_attr_loop env sw key expected n).1.filter isSleepEv).length = n := by
  induction n with
  | zero => exact ⟨rfl, rfl, rfl⟩
  | succ k ih =>
    simp [wait_attr_loop, h, isPollEv, isSleepEv, List.filter_cons, ih.1, ih.2.1, ih.2.2]

theorem delay_events_filter_svc (sw : FrameArtSwitch) :
    (delay_events sw).filter isSvcEv = [] := by
  unfold delay_events
  split <;> rfl

theorem call_select_app_head (env : Env) (sw : FrameArtSwitch) (a m : String)
    (hmp : sw.mp = some m) (hm : m ≠ "") :
    Ev.svc (SvcCall.selectAppApp m a) ∈ (call_select_app env sw a).1 := by
  cases h1 : env.svcOk (SvcCall.selectAppApp m a) <;>
  cases h2 : env.svcOk (SvcCall.selectAppAppId m a) <;>
  cases h3 : env.svcOk (SvcCall.selectSource m a) <;>
    simp [call_select_app, call_select_source, raw_async_call, hmp, hm, h1, h2, h3]

/-! ### C1: resolution of the unique valid, present media player -/

/-- Claim C1 counterexample: `cexReg1` contains exactly one valid,
present media player owned by `entry1` (the second row; the first is
disabled), yet resolution at setup returns the disabled first row, and
binds it as the switch's media-player reference. -/
theorem resolve_skips_validity_cex :
    (cexReg1.filter (claimValidPresent (fun _ => true) "entry1")).map
        RegEntry.entity_id = ["media_player.frame_two"] ∧
    resolveMp "entry1" cexReg1 = some "media_player.frame_one" ∧
    (setup_entry "entry1" none {} { host := some "10.0.0.9" } cexReg1).map
        FrameArtSwitch.mp = some (some "media_player.frame_one") ∧
    "media_player.frame_one" ≠ "media_player.frame_two" := by
  refine ⟨by decide, by decide, by decide, by decide⟩

/-- Claim C1 (amended): when exactly one registry row matches the
checked fields (domain `media_player`, platform `samsungtv_smart`,
owning entry id) — in particular when the unique valid, present media
player is also the only matching row — resolution returns it and setup
binds it as the switch's media-player reference.  (The source checks
neither the disabled flag nor presence in host state, which is what the
counterexample exploits.) -/
theorem resolve_unique_filter_match (entry_id : String) (reg : List RegEntry)
    (e : RegEntry) (title : Option String) (opts : Options) (data : EntryData)
    (hone : reg.filter (matches_entry entry_id) = [e])
    (hen : opts.enabled ≠ some false)
    (hhost : ∃ h0, pyOr data.host (pyOr data.ip_address (pyOr data.ip data.device_ip))
        = some h0 ∧ h0 ≠ "") :
    resolveMp entry_id reg = some e.entity_id ∧
    (setup_entry entry_id title opts data reg).map FrameArtSwitch.mp =
      some (some e.entity_id) := by
  have hfind : reg.find? (matches_entry entry_id) = some e :=
    find?_of_filter_singleton reg e hone
  have hres : resolveMp entry_id reg = some e.entity_id := by
    simp [resolveMp, hfind]
  refine ⟨hres, ?_⟩
  obtain ⟨h0, hh, hne⟩ := hhost
  simp [setup_entry, hen, hh, hne, hres, mkFrameArtSwitch]

/-- Witness for `resolve_unique_filter_match` at a concrete registry. -/
theorem resolve_unique_filter_match_inst :
    resolveMp "w1" cexRegW1 = some "media_player.sole" ∧
    (setup_entry "w1" none {} { host := some "10.0.0.3" } cexRegW1).map
      FrameArtSwitch.mp = some (some "media_player.sole") := by
  have h := resolve_unique_filter_match "w1" cexRegW1 cexRowW1 none {}
    { host := some "10.0.0.3" } (by decide) (by decide)
    ⟨"10.0.0.3", by decide, by decide⟩
  exact h

/-! ### C6: no filtering of disabled or absent entities -/

/-- Claim C6 counterexample: the only matching row of `cexReg6` is
disabled (`disabled_by = "user"`) and absent from host state, yet
resolution returns it. -/
theorem resolve_returns_disabled_absent_cex :
    resolveMp "entry6" cexReg6 = some "media_player.ghost" ∧
    (cexReg6.find? (matches_entry "entry6")).map RegEntry.disabled_by =
      some (some "user") ∧
    cexPresent6 "media_player.ghost" = false ∧
    cexReg6.filter (claimValidPresent cexPresent6 "entry6") = [] := by
  refine ⟨by decide, by decide, by decide, by decide⟩

/-- Claim C6 (amended): resolution checks only the domain, platform and
owning entry id of a registry row — every returned entity id comes from
a row matching those fields — but disabled rows and rows absent from
host state are not excluded. -/
theorem resolve_sound_for_checked_fields (entry_id eid : String)
    (reg : List RegEntry) (h : resolveMp entry_id reg = some eid) :
    ∃ e, e ∈ reg ∧ matches_entry entry_id e = true ∧ e.entity_id = eid := by
  unfold resolveMp at h
  cases hf : reg.find? (matches_entry entry_id) with
  | none => rw [hf] at h; simp at h
  | some e =>
    rw [hf] at h
    simp at h
    exact ⟨e, List.mem_of_find?_eq_some hf, List.find?_some hf, h⟩

/-- Witness for `resolve_sound_for_checked_fields` at `cexReg6`. -/
theorem resolve_sound_for_checked_fields_inst :
    ∃ e, e ∈ cexReg6 ∧ matches_entry "entry6" e = true ∧
      e.entity_id = "media_player.ghost" :=
  resolve_sound_for_checked_fields "entry6" "media_player.ghost" cexReg6 (by decide)

/-! ### C7: no slug preference among multiple candidates -/

/-- Claim C7 counterexample: two valid, present candidates in `cexReg7`,
of which only the second contains the slug `tv_two` of the instance
title "Tv Two"; resolution returns the first candidate, not the
slug-matching one. -/
theorem resolve_no_slug_preference_cex :
    slugify "Tv Two" = "tv_two" ∧
    strContains "media_player.tv_two" (slugify "Tv Two") = true ∧
    strContains "media_player.samsung_frame" (slugify "Tv Two") = false ∧
    (cexReg7.filter (claimValidPresent (fun _ => true) "entry7")).map
        RegEntry.entity_id =
      ["media_player.samsung_frame", "media_player.tv_two"] ∧
    resolveMp "entry7" cexReg7 = some "media_player.samsung_frame" := by
  refine ⟨by decide, by decide, by decide, by decide, by decide⟩

/-- Claim C7 (amended): with multiple candidates, resolution returns the
first matching row in registry iteration order; the source has no slug
preference. -/
theorem resolve_first_in_iteration_order (entry_id : String)
    (pre post : List RegEntry) (e : RegEntry)
    (hpre : ∀ x ∈ pre, matches_entry entry_id x = false)
    (he : matches_entry entry_id e = true) :
    resolveMp entry_id (pre ++ e :: post) = some e.entity_id := by
  unfold resolveMp
  rw [find?_append_first pre post e hpre he]
  rfl

/-- Witness for `resolve_first_in_iteration_order` at a concrete
registry with a second matching candidate after the first. -/
theorem resolve_first_in_iteration_order_inst :
    resolveMp "w7" (cexPre7 ++ cexRowE7 :: cexPost7) =
      some "media_player.first_match" := by
  have h := resolve_first_in_iteration_order "w7" cexPre7 cexPost7 cexRowE7
    (by decide) (by decide)
  simpa using h

/-! ### C8: the cached media-player reference -/

/-- Claim C8 counterexample: setup builds a switch whose media-player
reference names an entity absent from host state, the reference is not
`None`, and it survives a full turn-off (no invalidation or lazy
recomputation exists in the source). -/
theorem mp_reference_stale_cex :
    (setup_entry "entry8" none {} { host := some "10.0.0.8" } cexReg8).map
        FrameArtSwitch.mp = some (some "media_player.vanished") ∧
    cexEnv8.states "media_player.vanished" = none ∧
    (async_turn_off cexEnv8 true cexSw8).1.mp = some "media_player.vanished" ∧
    some "media_player.vanished" ≠ (none : Option String) := by
  refine ⟨by decide, rfl, by decide, by decide⟩

/-- Claim C8 (amended): the media-player reference is fixed when the
switch is constructed and never invalidated or recomputed; the toggle
handlers preserve it, and when the referenced entity is absent from the
host state store an attribute read merely returns `none`. -/
theorem mp_reference_fixed (env : Env) (artOk : Bool) (sw : FrameArtSwitch)
    (uid nm hst : String) (mp : Option String) (opts : Options) (key : String) :
    ((async_turn_on artOk sw).1).mp = sw.mp ∧
    ((async_turn_off env artOk sw).1).mp = sw.mp ∧
    (mkFrameArtSwitch uid nm hst mp opts).mp = mp ∧
    (∀ m, sw.mp = some m → env.states m = none → get_attr env sw key = none) := by
    refine ⟨?_, ?_, rfl, ?_⟩
    · cases artOk <;> simp [async_turn_on]
    · cases artOk <;> simp [async_turn_off]
    · intro m hm hs
      by_cases hme : m = "" <;> simp [get_attr, hm, hs, hme]

/-- Witness for `mp_reference_fixed` at the C8 environment and switch. -/
theorem mp_reference_fixed_inst :
    get_attr cexEnv8 cexSw8 "source" = none := by
  have h := mp_reference_fixed cexEnv8 true cexSw8 "u" "n" "h" none {} "source"
  exact h.2.2.2 "media_player.vanished" (by decide) rfl

/-! ### C9: `is_on` tracks the requested state -/

/-- Claim C9: after on, off, on with successful art-mode commands,
`is_on` is `true`, after on then off it is `false`, independently of
every sequencer outcome (the environment), and the post-toggle state
does not depend on the environment at all — the sequencer never touches
the switch state. -/
theorem is_on_tracks_requests (env env2 : Env) (artOk : Bool) (sw : FrameArtSwitch) :
    ((async_turn_on true
        ((async_turn_off env true ((async_turn_on true sw).1)).1)).1).is_on
      = true ∧
    ((async_turn_off env true ((async_turn_on true sw).1)).1).is_on = false ∧
    (async_turn_off env artOk sw).1 = (async_turn_off env2 artOk sw).1 := by
  cases artOk <;> simp [async_turn_on, async_turn_off]

/-! ### C10: option clamping -/

/-- Claim C10: the stored timing parameters are clamped — the select
delay is at least 0, the retry count a non-negative integer (`ℕ` after
`max(0, int(...))`), the retry sleep at least 50 ms (0.05 s) — and every
sleep performed by the attribute wait lasts exactly the clamped retry
sleep, hence at least 50 ms, whatever was configured. -/
theorem options_clamped (uid nm hst : String) (mp : Option String) (opts : Options) :
    0 ≤ (mkFrameArtSwitch uid nm hst mp opts).delay ∧
    50 ≤ (mkFrameArtSwitch uid nm hst mp opts).retry_sleep ∧
    (mkFrameArtSwitch uid nm hst mp opts).retries =
      (pyMax 0 (opts.retries.getD 6)).toNat ∧
    (∀ env key expected d,
      Ev.sleep d ∈ (wait_attr env (mkFrameArtSwitch uid nm hst mp opts) key expected).1 →
      d = (mkFrameArtSwitch uid nm hst mp opts).retry_sleep ∧ 50 ≤ d) := by
  have hd : (0:ℤ) ≤ pyMax 0 (opts.select_delay.getD 600) := by
    unfold pyMax; split <;> omega
  have hs : (50:ℤ) ≤ pyMax 50 (opts.retry_sleep.getD 350) := by
    unfold pyMax; split <;> omega
  refine ⟨hd, hs, rfl, ?_⟩
  intro env key expected d hmem
  have heq : d = (mkFrameArtSwitch uid nm hst mp opts).retry_sleep :=
    wait_attr_loop_sleep_dur env (mkFrameArtSwitch uid nm hst mp opts)
      key expected d _ hmem
  exact ⟨heq, heq ▸ hs⟩

/-- Witness for `options_clamped`: a configured 10 ms retry sleep is
clamped to 50 ms, and the single sleep of the wait loop lasts 50 ms. -/
theorem options_clamped_inst :
    (50 : ℤ) =
      (mkFrameArtSwitch "u" "n" "h" (some "media_player.x") cexOpts10).retry_sleep ∧
    (50 : ℤ) ≤ 50 :=
  (options_clamped "u" "n" "h" (some "media_player.x") cexOpts10).2.2.2
    cexEnv10 "source" "HDMI1" 50 (by decide)

/-! ### C4: the attribute wait -/

/-- Claim C4 counterexample: with `frame_art_retries: 3` and an
attribute that never reaches the expected value, `_wait_attr` polls the
attribute 4 times (`range(retries + 1)`), not 3, and logs nothing when
the retries exhaust (it silently returns `False`). -/
theorem wait_attr_poll_count_cex :
    cexSw4.retries = 3 ∧
    ((wait_attr cexEnv4 cexSw4 "source" "HDMI1").1.filter isPollEv).length = 4 ∧
    ((wait_attr cexEnv4 cexSw4 "source" "HDMI1").1.filter isPollEv).length ≠ 3 ∧
    (wait_attr cexEnv4 cexSw4 "source" "HDMI1").1.filter isLogEv = [] ∧
    (wait_attr cexEnv4 cexSw4 "source" "HDMI1").2 = false := by
  refine ⟨by decide, by decide, by decide, by decide, by decide⟩

/-- Claim C4 (amended): when the polled attribute never equals the
expected value, `_wait_attr` checks it exactly `retries + 1` times,
sleeps the clamped retry interval after each failed check (so
`retries + 1` sleeps, each of the stored duration), returns `False`,
and emits no log event of its own when the retries exhaust. -/
theorem wait_attr_exhaustion (env : Env) (sw : FrameArtSwitch)
    (key expected : String) (h : ¬ get_attr env sw key = some expected) :
    (wait_attr env sw key expected).2 = false ∧
    ((wait_attr env sw key expected).1.filter isPollEv).length = sw.retries + 1 ∧
    ((wait_attr env sw key expected).1.filter isSleepEv).length = sw.retries + 1 ∧
    (wait_attr env sw key expected).1.filter isLogEv = [] ∧
    (∀ d, Ev.sleep d ∈ (wait_attr env sw key expected).1 → d = sw.retry_sleep) := by
  have hx := wait_attr_loop_exhaust env sw key expected h (sw.retries + 1)
  exact ⟨hx.1, hx.2.1, hx.2.2, wait_attr_loop_no_log env sw key expected _,
    fun d hd => wait_attr_loop_sleep_dur env sw key expected d _ hd⟩

/-- Witness for `wait_attr_exhaustion` at the C4 switch. -/
theorem wait_attr_exhaustion_inst :
    (wait_attr cexEnv4 cexSw4 "app_id" "TV/HDMI").2 = false ∧
    ((wait_attr cexEnv4 cexSw4 "app_id" "TV/HDMI").1.filter isPollEv).length =
      cexSw4.retries + 1 := by
  have h := wait_attr_exhaustion cexEnv4 cexSw4 "app_id" "TV/HDMI" (by decide)
  exact ⟨h.1, h.2.1⟩

/-! ### C5: the select-app strategy chain -/

/-- Claim C5: with a resolved media player, `_call_select_app` tries the
three strategies in a fixed order — `select_app` with parameter `app`,
then `select_app` with parameter `app_id`, then a plain
`media_player.select_source` with the app id as label — stopping at the
first success; its result is `True` iff one of the three calls
succeeds, and the issued service calls are exactly the prefix of the
chain up to the first success. -/
theorem select_app_strategy_chain (env : Env) (sw : FrameArtSwitch) (m a : String)
    (hmp : sw.mp = some m) (hm : m ≠ "") :
    (call_select_app env sw a).2 =
      (env.svcOk (SvcCall.selectAppApp m a) || env.svcOk (SvcCall.selectAppAppId m a)
        || env.svcOk (SvcCall.selectSource m a)) ∧
    (call_select_app env sw a).1.filter isSvcEv =
      (if env.svcOk (SvcCall.selectAppApp m a) then
        [Ev.svc (SvcCall.selectAppApp m a)]
       else if env.svcOk (SvcCall.selectAppAppId m a) then
        [Ev.svc (SvcCall.selectAppApp m a), Ev.svc (SvcCall.selectAppAppId m a)]
       else
        [Ev.svc (SvcCall.selectAppApp m a), Ev.svc (SvcCall.selectAppAppId m a),
         Ev.svc (SvcCall.selectSource m a)]) := by
  cases h1 : env.svcOk (SvcCall.selectAppApp m a) <;>
  cases h2 : env.svcOk (SvcCall.selectAppAppId m a) <;>
  cases h3 : env.svcOk (SvcCall.selectSource m a) <;>
    simp [call_select_app, call_select_source, raw_async_call, hmp, hm, h1, h2, h3,
      isSvcEv, List.filter_cons, List.filter_append]

/-- Witness for `select_app_strategy_chain`: both `select_app` attempts
fail and the plain source selection succeeds, so the operation succeeds
and issues all three calls in order. -/
theorem select_app_strategy_chain_inst :
    (call_select_app cexEnv5 cexSw5 "TV/HDMI").2 = true ∧
    (call_select_app cexEnv5 cexSw5 "TV/HDMI").1.filter isSvcEv =
      [Ev.svc (SvcCall.selectAppApp "media_player.f" "TV/HDMI"),
       Ev.svc (SvcCall.selectAppAppId "media_player.f" "TV/HDMI"),
       Ev.svc (SvcCall.selectSource "media_player.f" "TV/HDMI")] := by
  have h := select_app_strategy_chain cexEnv5 cexSw5 "media_player.f" "TV/HDMI"
    rfl (by decide)
  refine ⟨?_, ?_⟩
  · rw [h.1]; rfl
  · rw [h.2]; rfl

/-! ### C2: the sequencer catches failures and always completes -/

/-- Claim C2 counterexample: when the primary-parameter `select_app`
call fails and the alternate-parameter call succeeds, the failure is
caught (the operation still succeeds) but no failure is logged — the
primary attempt's handler logs nothing — so "each service-call failure
is caught at its call site and logged" does not hold as stated. -/
theorem app_primary_failure_unlogged_cex :
    cexEnv2.svcOk (SvcCall.selectAppApp "media_player.x" "TV/HDMI") = false ∧
    Ev.svc (SvcCall.selectAppApp "media_player.x" "TV/HDMI")
      ∈ (call_select_app cexEnv2 cexSw2 "TV/HDMI").1 ∧
    (call_select_app cexEnv2 cexSw2 "TV/HDMI").1.filter isFailureLogEv = [] ∧
    (call_select_app cexEnv2 cexSw2 "TV/HDMI").2 = true := by
  refine ⟨by decide, by decide, by decide, by decide⟩

/-- Claim C2 (amended): for every option configuration and every
outcome of the host service calls, the post-toggle sequencer completes
without raising and nothing propagates to `async_turn_off`; every
failure is caught at its call site; a failed `select_source` call is
logged at its call site; a `select_app` failure is logged once both
parameter-name attempts have failed (a primary-parameter failure alone
is not logged); and a failure in the source step does not abort the app
step, whose first call is still issued. -/
theorem sequencer_total_and_failures_caught (env : Env) (sw : FrameArtSwitch) :
    (sequence_after_art_off env sw).2 = Except.ok () ∧
    (∀ artOk, (async_turn_off env artOk sw).2.2 = Except.ok ()) ∧
    (∀ m label, sw.mp = some m → m ≠ "" →
      env.svcOk (SvcCall.selectSource m label) = false →
      call_select_source env sw label =
        ([Ev.svc (SvcCall.selectSource m label), Ev.log LogMsg.selectSourceFailed],
          false)) ∧
    (∀ m, sw.mp = some m → m ≠ "" →
      env.svcOk (SvcCall.selectAppApp m sw.app_id) = false →
      env.svcOk (SvcCall.selectAppAppId m sw.app_id) = false →
      Ev.log LogMsg.selectAppFallbackFailed ∈ (call_select_app env sw sw.app_id).1) ∧
    (∀ m, sw.enabled = true → sw.app_id ≠ "" → sw.mp = some m → m ≠ "" →
      Ev.svc (SvcCall.selectAppApp m sw.app_id) ∈ (sequence_after_art_off env sw).1) := by
  refine ⟨sequence_after_art_off_ok env sw, ?_, ?_, ?_, ?_⟩
  · intro artOk
    cases artOk <;> simp [async_turn_off, sequence_after_art_off_ok]
  · intro m label hmp hm hfail
    simp [call_select_source, raw_async_call, hmp, hm, hfail]
  · intro m hmp hm h1 h2
    simp [call_select_app, raw_async_call, hmp, hm, h1, h2, List.mem_append]
  · intro m hen ha hmp hm
    have hmem := call_select_app_head env sw sw.app_id m hmp hm
    have happ : Ev.svc (SvcCall.selectAppApp m sw.app_id) ∈ seq_app_step env sw := by
      by_cases hc : (call_select_app env sw sw.app_id).2 = true <;>
        simp [seq_app_step, ha, hc, List.mem_append, hmem]
    simp [sequence_after_art_off, hen, List.mem_append, happ]

/-- Witness for `sequencer_total_and_failures_caught` in an environment
where every service call fails. -/
theorem sequencer_total_and_failures_caught_inst :
    (sequence_after_art_off cexEnv2w cexSw2w).2 = Except.ok () ∧
    call_select_source cexEnv2w cexSw2w "HDMI1" =
      ([Ev.svc (SvcCall.selectSource "media_player.w" "HDMI1"),
        Ev.log LogMsg.selectSourceFailed], false) ∧
    Ev.log LogMsg.selectAppFallbackFailed ∈
      (call_select_app cexEnv2w cexSw2w cexSw2w.app_id).1 ∧
    Ev.svc (SvcCall.selectAppApp "media_player.w" cexSw2w.app_id) ∈
      (sequence_after_art_off cexEnv2w cexSw2w).1 := by
  have h := sequencer_total_and_failures_caught cexEnv2w cexSw2w
  exact ⟨h.1, h.2.2.1 "media_player.w" "HDMI1" rfl (by decide) rfl,
    h.2.2.2.1 "media_player.w" rfl (by decide) rfl rfl,
    h.2.2.2.2 "media_player.w" (by decide) (by decide) rfl (by decide)⟩

/-! ### C3: exactly one source call, then one app call -/

/-- The service calls of the source step when the call succeeds: the
single `select_source` call (the delay and the wait contribute none). -/
theorem seq_source_step_svc_success (env : Env) (t : FrameArtSwitch) (s m : String)
    (hsrc : t.source_off = some s) (hs : s ≠ "") (hmp : t.mp = some m) (hm : m ≠ "")
    (hok : env.svcOk (SvcCall.selectSource m s) = true) :
    (seq_source_step env t).filter isSvcEv = [Ev.svc (SvcCall.selectSource m s)] := by
  simp [seq_source_step, hsrc, hs, call_select_source, raw_async_call, hmp, hm, hok,
    List.filter_append, List.filter_cons, isSvcEv, delay_events_filter_svc,
    wait_attr, wait_attr_loop_no_svc]

/-- The service calls of the app step when the primary `select_app`
call succeeds: that single call. -/
theorem seq_app_step_svc_success (env : Env) (t : FrameArtSwitch) (m : String)
    (ha : t.app_id ≠ "") (hmp : t.mp = some m) (hm : m ≠ "")
    (hok : env.svcOk (SvcCall.selectAppApp m t.app_id) = true) :
    (seq_app_step env t).filter isSvcEv = [Ev.svc (SvcCall.selectAppApp m t.app_id)] := by
  simp [seq_app_step, ha, call_select_app, raw_async_call, hmp, hm, hok,
    List.filter_append, List.filter_cons, isSvcEv, delay_events_filter_svc,
    wait_attr, wait_attr_loop_no_svc]

/-- The service calls of the whole sequencer in the success scenario:
the source call, then the app call. -/
theorem sequence_svc_trace (env : Env) (t : FrameArtSwitch) (s m : String)
    (hen : t.enabled = true) (hsrc : t.source_off = some s) (hs : s ≠ "")
    (ha : t.app_id ≠ "") (hmp : t.mp = some m) (hm : m ≠ "")
    (hok1 : env.svcOk (SvcCall.selectSource m s) = true)
    (hok2 : env.svcOk (SvcCall.selectAppApp m t.app_id) = true) :
    (sequence_after_art_off env t).1.filter isSvcEv =
      [Ev.svc (SvcCall.selectSource m s), Ev.svc (SvcCall.selectAppApp m t.app_id)] := by
  rw [sequence_after_art_off, if_pos hen]
  rw [List.filter_append, seq_source_step_svc_success env t s m hsrc hs hmp hm hok1,
    seq_app_step_svc_success env t m ha hmp hm hok2]
  rfl

/-- Claim C3: with the feature enabled, a source-off option, an app-id
option and a resolved media player, and with the art-mode-off command
and the two service calls succeeding (the spec scenario), turning the
switch off issues exactly one `select_source` service call and then
exactly one `select_app` service call — the trace's service calls are
exactly those two, in that order — and returns without error. -/
theorem turn_off_one_source_then_one_app (env : Env) (sw : FrameArtSwitch)
    (m s : String)
    (hen : sw.enabled = true) (hsrc : sw.source_off = some s) (hs : s ≠ "")
    (ha : sw.app_id ≠ "") (hmp : sw.mp = some m) (hm : m ≠ "")
    (hok1 : env.svcOk (SvcCall.selectSource m s) = true)
    (hok2 : env.svcOk (SvcCall.selectAppApp m sw.app_id) = true) :
    (async_turn_off env true sw).2.1.filter isSvcEv =
      [Ev.svc (SvcCall.selectSource m s),
       Ev.svc (SvcCall.selectAppApp m sw.app_id)] ∧
    (async_turn_off env true sw).2.2 = Except.ok () := by
  constructor
  · have h3 := sequence_svc_trace env { sw with is_on := false, available := true }
      s m hen hsrc hs ha hmp hm hok1 hok2
    show (Ev.art "off" ::
        (sequence_after_art_off env
          { sw with is_on := false, available := true }).1).filter isSvcEv = _
    rw [List.filter_cons]
    simp [isSvcEv, h3]
  · simp [async_turn_off, sequence_after_art_off_ok]

/-- Witness for `turn_off_one_source_then_one_app` at the spec
scenario's options, with an attribute store that never changes. -/
theorem turn_off_one_source_then_one_app_inst :
    (async_turn_off cexEnv3 true cexSw3).2.1.filter isSvcEv =
      [Ev.svc (SvcCall.selectSource "media_player.frame3" "HDMI1"),
       Ev.svc (SvcCall.selectAppApp "media_player.frame3" cexSw3.app_id)] ∧
    (async_turn_off cexEnv3 true cexSw3).2.2 = Except.ok () :=
  turn_off_one_source_then_one_app cexEnv3 cexSw3 "media_player.frame3" "HDMI1"
    (by decide) (by decide) (by decide) (by decide) (by decide) (by decide) rfl rfl
